import Mathlib

/-!
# Verification of planet_downloader.py

A shallow embedding of the asset lifecycle core of planet_downloader.py:
the status ledger, the retrying HTTP calls, asset activation and polling,
asset download, and the per-scene orchestration (process_scene) plus the
batch loop in main.

Effectful Python code is embedded as state passing over a `St` record that
holds the injected HTTP environment, the persisted ledger file, the files
on disk and a clock, together with a trace of observable events (HTTP
requests, sleeps, file writes).  Fallible code runs in an `Except PyErr`
layer: an uncaught Python exception (KeyError, an un-handled
requests exception) is an `Except.error` value that propagates through
binds exactly as an exception propagates through Python callers that have
no try/except.
-/

/-- A JSON value, as produced by `response.json()`. -/
inductive Json where
  | null : Json
  | str : String → Json
  | num : Nat → Json
  | bool : Bool → Json
  | arr : List Json → Json
  | obj : List (String × Json) → Json

/-- Association-list lookup, first binding wins (Python dict lookup). -/
def alookup {α : Type} : List (String × α) → String → Option α
  | [], _ => none
  | (k, v) :: rest, key => if k == key then some v else alookup rest key

/-- Association-list update: replace in place if the key exists, else append
(Python dict item assignment). -/
def aset {α : Type} : List (String × α) → String → α → List (String × α)
  | [], key, v => [(key, v)]
  | (k, w) :: rest, key, v =>
      if k == key then (k, v) :: rest else (k, w) :: aset rest key v

/-- `d[k]` style lookup on a JSON value; `none` when the value is not an
object or the key is absent. -/
def Json.lookup? : Json → String → Option Json
  | Json.obj fields, k => alookup fields k
  | _, _ => none

/-- `k in d` membership test on a JSON object. -/
def Json.hasKey (j : Json) (k : String) : Bool :=
  (j.lookup? k).isSome

/-- Python truthiness of a JSON value: `None`, `""`, `0`, `False`, `[]` and
`{}` are falsy. -/
def Json.isFalsy : Json → Bool
  | Json.null => true
  | Json.str s => s == ""
  | Json.num n => n == 0
  | Json.bool b => !b
  | Json.arr xs => xs.isEmpty
  | Json.obj fields => fields.isEmpty

/-- Python `x == "lit"` where `x` came from JSON: true only for the equal
string (comparison of a non-string against a string is `False`). -/
def jsonEqStr (j : Json) (s : String) : Bool :=
  match j with
  | Json.str t => t == s
  | _ => false

/-- Python `str` coercion as used in f-strings; all values reaching it in
the claims below are strings. -/
def pyStr : Json → String
  | Json.str s => s
  | _ => ""

/-- `list.split(c)` on a list of characters, Python semantics: the result
is never empty, and an empty input gives one empty piece. -/
def pySplitList (c : Char) : List Char → List (List Char)
  | [] => [[]]
  | x :: xs =>
      if x == c then [] :: pySplitList c xs
      else
        match pySplitList c xs with
        | [] => [[x]]
        | h :: t => (x :: h) :: t

/-- Python `s.split(c)` for a single-character separator. -/
def pySplit (s : String) (c : Char) : List String :=
  (pySplitList c s.toList).map List.asString

/-- Python `parts[0]` on a split result (split results are never empty). -/
def pyHead (l : List String) : String := l.headD ""

/-- The status ledger persisted in planet_status.json
(load_status / save_status, lines 351-364). -/
structure Ledger where
  activated_scenes : List (String × String)
  downloaded_scenes : List (String × Bool)
deriving DecidableEq, Repr

/-- The empty ledger returned by load_status when no file exists. -/
def Ledger.empty : Ledger := { activated_scenes := [], downloaded_scenes := [] }

/-- Contents of a file on disk, abstracted to what the claims observe. -/
inductive FileData where
  | whole : FileData
  | truncated : FileData
  | ledgerSnap : Ledger → FileData
  | metaSnap : FileData
deriving DecidableEq, Repr

inductive HttpMethod where
  | get : HttpMethod
  | post : HttpMethod
deriving DecidableEq, Repr

/-- Outcome of one HTTP request as seen by the caller: a response with a
status code and decoded JSON body, a transport fault
(requests.exceptions.RequestException), or a 200 response whose body
stream breaks midway (also a RequestException once reading starts). -/
inductive HttpOutcome where
  | resp : Nat → Json → HttpOutcome
  | exn : HttpOutcome
  | streamBreak : HttpOutcome

/-- Uncaught Python exceptions that can cross function boundaries here. -/
inductive PyErr where
  | keyError : String → PyErr
  | requestError : PyErr
deriving DecidableEq, Repr

/-- Observable events of a run. -/
inductive Event where
  | httpGet : String → Event
  | httpPost : String → Event
  | slept : Nat → Event
  | openTrunc : String → Event
  | wroteFile : String → FileData → Event
  | renamed : String → String → Event
  | tally : Nat → Nat → Event
deriving DecidableEq, Repr

/-- Program state: the injected HTTP environment (a function of the index
of the request, its method and its URL), the number of requests issued so
far, the persisted ledger file, the files on disk, and a clock advanced by
sleeps. -/
structure St where
  env : Nat → HttpMethod → String → HttpOutcome
  reqCount : Nat
  statusFile : Option Ledger
  diskFiles : List (String × FileData)
  clock : Nat

/-- The effect monad: explicit state passing plus an event trace, with an
`Except` layer for uncaught Python exceptions. -/
def PM (α : Type) : Type := St → Except PyErr α × St × List Event

instance : Monad PM where
  pure a := fun s => (Except.ok a, s, [])
  bind x f := fun s =>
    match x s with
    | (Except.ok a, s1, t1) =>
        match f a s1 with
        | (r, s2, t2) => (r, s2, t1 ++ t2)
    | (Except.error e, s1, t1) => (Except.error e, s1, t1)

/-- Raise an uncaught Python exception. -/
def PM.raise {α : Type} (e : PyErr) : PM α := fun s => (Except.error e, s, [])

/-- Issue one HTTP request; its outcome is decided by the environment. -/
def httpRequest (m : HttpMethod) (url : String) : PM HttpOutcome := fun s =>
  (Except.ok (s.env s.reqCount m url),
   { s with reqCount := s.reqCount + 1 },
   [match m with
    | HttpMethod.get => Event.httpGet url
    | HttpMethod.post => Event.httpPost url])

/-- time.sleep: advances the clock and records the wait. -/
def pmSleep (n : Nat) : PM Unit := fun s =>
  (Except.ok (), { s with clock := s.clock + n }, [Event.slept n])

/-- time.time(). -/
def timeNow : PM Nat := fun s => (Except.ok s.clock, s, [])

/-- Record an observable event with no state change (a log line). -/
def emitEvent (e : Event) : PM Unit := fun s => (Except.ok (), s, [e])

/-- os.path.exists. -/
def pathExists (p : String) : PM Bool := fun s =>
  (Except.ok (alookup s.diskFiles p).isSome, s, [])

/-- open(p, "wb") followed by writing data d: the open truncates, then the
contents become d. -/
def writeDisk (p : String) (d : FileData) : PM Unit := fun s =>
  (Except.ok (), { s with diskFiles := aset s.diskFiles p d },
   [Event.openTrunc p, Event.wroteFile p d])

/-- Python `d[k]` on a JSON value: KeyError when absent. -/
def jsonIndex (j : Json) (k : String) : PM Json :=
  match j.lookup? k with
  | some v => pure v
  | none => PM.raise (PyErr.keyError k)

def BASE_URL : String := "https://api.planet.com/data/v1"

def SEARCH_URL : String := BASE_URL ++ "/quick-search"

def statusFileName : String := "planet_status.json"

/-- load_status (lines 351-357): read the ledger file, empty maps when the
file does not exist. -/
def load_status : PM Ledger := fun s =>
  (Except.ok (match s.statusFile with
              | some l => l
              | none => Ledger.empty), s, [])

/-- save_status (lines 360-364): open planet_status.json for writing
(truncating it) and dump the snapshot.  No temporary file, no rename. -/
def save_status (l : Ledger) : PM Unit := fun s =>
  (Except.ok (), { s with statusFile := some l },
   [Event.openTrunc statusFileName,
    Event.wroteFile statusFileName (FileData.ledgerSnap l)])

/-- The retry loop of get_asset_activation_status (lines 186-216).  The
fuel argument is the number of attempts still available including the
current one (`for attempt in range(3)`); `fuel > 0` after consuming the
current attempt corresponds to `attempt < max_retries - 1`.  On 429 the
code sleeps the current delay, doubles it and continues (skipping the
bottom sleep); on any other failure it falls to the bottom sleep, which
does not change the delay. -/
def get_asset_activation_status_go (asset_url : String) :
    Nat → Nat → PM (Option Json)
  | 0, _ => pure none
  | fuel + 1, retry_delay => do
      let o ← httpRequest HttpMethod.get asset_url
      match o with
      | HttpOutcome.resp code body =>
          if code == 200 then
            pure (some body)
          else if code == 429 then do
            pmSleep retry_delay
            get_asset_activation_status_go asset_url fuel (retry_delay * 2)
          else do
            if fuel > 0 then pmSleep retry_delay else pure ()
            get_asset_activation_status_go asset_url fuel retry_delay
      | _ => do
          if fuel > 0 then pmSleep retry_delay else pure ()
          get_asset_activation_status_go asset_url fuel retry_delay

/-- get_asset_activation_status (lines 186-216): up to 3 attempts, delay
starting at 2 seconds; returns the decoded body on a 200, None once the
attempts are exhausted. -/
def get_asset_activation_status (asset_url : String) : PM (Option Json) :=
  get_asset_activation_status_go asset_url 3 2

/-- The retry loop of activate_asset (lines 219-252), same discipline as
the status loop but issuing a POST and succeeding on 202 or 204. -/
def activate_asset_go (asset_url : String) : Nat → Nat → PM Bool
  | 0, _ => pure false
  | fuel + 1, retry_delay => do
      let o ← httpRequest HttpMethod.post asset_url
      match o with
      | HttpOutcome.resp code _body =>
          if code == 202 || code == 204 then
            pure true
          else if code == 429 then do
            pmSleep retry_delay
            activate_asset_go asset_url fuel (retry_delay * 2)
          else do
            if fuel > 0 then pmSleep retry_delay else pure ()
            activate_asset_go asset_url fuel retry_delay
      | _ => do
          if fuel > 0 then pmSleep retry_delay else pure ()
          activate_asset_go asset_url fuel retry_delay

/-- activate_asset (lines 219-252). -/
def activate_asset (asset_url : String) : PM Bool :=
  activate_asset_go asset_url 3 2

/-- Key derivation in wait_for_asset_activation (lines 263-272): split the
self link on slashes; when there are at least 8 pieces the code takes
parts[-4] as the item id and parts[-1] as the asset type, otherwise the
key is None and the ledger update is later skipped. -/
def derive_asset_key (asset_url : String) : Option String :=
  let url_parts := pySplit asset_url '/'
  if 8 ≤ url_parts.length then
    some (((url_parts.get? (url_parts.length - 4)).getD "") ++ "_" ++
          ((url_parts.get? (url_parts.length - 1)).getD ""))
  else
    none

/-- The polling loop of wait_for_asset_activation (lines 274-297).  The
while condition compares elapsed wall time against the timeout; fuel is an
upper bound on iterations that is never reached for the default arguments
because every non-returning iteration sleeps at least check_interval
seconds, so fuel `timeout / check_interval + 1` makes the fuel-exhausted
branch (returning False, like a timeout) unreachable. -/
def wait_go (asset_url : String) (asset_key : Option String)
    (start_time timeout check_interval : Nat) : Nat → PM Bool
  | 0 => pure false
  | fuel + 1 => do
      let now ← timeNow
      if now - start_time < timeout then do
        let asset_status ← get_asset_activation_status asset_url
        match asset_status with
        | none => pure false
        | some st =>
            if st.isFalsy then
              pure false
            else do
              let sv ← jsonIndex st "status"
              if jsonEqStr sv "active" then
                match asset_key with
                | some k => do
                    let status ← load_status
                    if (alookup status.activated_scenes k).isSome then do
                      save_status { status with
                        activated_scenes := aset status.activated_scenes k "active" }
                      pure true
                    else
                      pure true
                | none => pure true
              else do
                pmSleep check_interval
                wait_go asset_url asset_key start_time timeout check_interval fuel
      else
        pure false

/-- wait_for_asset_activation (lines 255-297). -/
def wait_for_asset_activation (asset_url : String)
    (timeout check_interval : Nat) : PM Bool := do
  let start_time ← timeNow
  let asset_key := derive_asset_key asset_url
  wait_go asset_url asset_key start_time timeout check_interval
    (timeout / check_interval + 1)

/-- The download retry loop of download_asset (lines 313-346).  A 200
response streams the full body into output_path (open "wb" truncates, the
chunks are then written); a broken stream leaves a truncated file at
output_path and is retried like a transport fault.  Unlike the other two
retry loops, the bottom sleep here also doubles the delay (line 343). -/
def download_go (download_url output_path : String) : Nat → Nat → PM Bool
  | 0, _ => pure false
  | fuel + 1, retry_delay => do
      let o ← httpRequest HttpMethod.get download_url
      match o with
      | HttpOutcome.resp code _body =>
          if code == 200 then do
            writeDisk output_path FileData.whole
            pure true
          else if code == 429 then do
            pmSleep retry_delay
            download_go download_url output_path fuel (retry_delay * 2)
          else
            if fuel > 0 then do
              pmSleep retry_delay
              download_go download_url output_path fuel (retry_delay * 2)
            else
              download_go download_url output_path fuel retry_delay
      | HttpOutcome.exn =>
          if fuel > 0 then do
            pmSleep retry_delay
            download_go download_url output_path fuel (retry_delay * 2)
          else
            download_go download_url output_path fuel retry_delay
      | HttpOutcome.streamBreak => do
          writeDisk output_path FileData.truncated
          if fuel > 0 then do
            pmSleep retry_delay
            download_go download_url output_path fuel (retry_delay * 2)
          else
            download_go download_url output_path fuel retry_delay

/-- download_asset (lines 300-346): re-fetch the status, require a truthy
body whose status field equals active and that carries a location, then
stream from the location with retries.  The precondition checks issue no
download request and are not retried. -/
def download_asset (asset_url output_path : String) : PM Bool := do
  let status ← get_asset_activation_status asset_url
  match status with
  | none => pure false
  | some st =>
      if st.isFalsy then
        pure false
      else do
        let sv ← jsonIndex st "status"
        if !(jsonEqStr sv "active") then
          pure false
        else if !(st.hasKey "location") then
          pure false
        else do
          let dl ← jsonIndex st "location"
          download_go (pyStr dl) output_path 3 2

/-- save_metadata (lines 367-403): derive the date directory from the
scene id and acquisition date, write the metadata sidecar, return the date
directory.  The metadata dict construction indexes properties.acquired and
properties.cloud_cover with bracket syntax (KeyError when absent); the
remaining fields use .get and cannot fail. -/
def save_metadata (scene : Json) (output_dir : String) : PM String := do
  let scene_idJ ← jsonIndex scene "id"
  let scene_id := pyStr scene_idJ
  let propsA ← jsonIndex scene "properties"
  let acquiredJ ← jsonIndex propsA "acquired"
  let acquired_date := pyHead (pySplit (pyStr acquiredJ) 'T')
  let year := pyHead (pySplit acquired_date '-')
  let year_dir := output_dir ++ "/" ++ year
  let date_dir := year_dir ++ "/" ++ acquired_date
  let metadata_file := date_dir ++ "/" ++ scene_id ++ "_metadata.json"
  let propsB ← jsonIndex scene "properties"
  let _acq ← jsonIndex propsB "acquired"
  let _cc ← jsonIndex propsB "cloud_cover"
  writeDisk metadata_file FileData.metaSnap
  pure date_dir

/-- The tail of process_scene after the activation section (lines
476-494): return early in activate-only mode, otherwise skip the download
when the ledger marks the key downloaded and the file exists, else
download and, on success, persist the downloaded flag using the in-memory
snapshot statusLocal that process_scene has been mutating. -/
def process_scene_rest (activate_only : Bool) (statusLocal : Ledger)
    (self_link date_dir scene_id a_type : String) : PM Bool := do
  if activate_only then
    pure true
  else do
    let asset_key := scene_id ++ "_" ++ a_type
    let raw_tif_path := date_dir ++ "/" ++ scene_id ++ "_" ++ a_type ++ ".tif"
    let onDisk ← pathExists raw_tif_path
    if (alookup statusLocal.downloaded_scenes asset_key).isSome && onDisk then
      pure true
    else do
      let ok ← download_asset self_link raw_tif_path
      if ok then do
        save_status { statusLocal with
          downloaded_scenes := aset statusLocal.downloaded_scenes asset_key true }
        pure true
      else
        pure false

/-- The URL of the per-scene assets listing (line 418). -/
def assets_url_of (item_type scene_id : String) : String :=
  BASE_URL ++ "/item-types/" ++ item_type ++ "/items/" ++ scene_id ++ "/assets"

/-- process_scene (lines 406-494): write the metadata sidecar, load the
ledger, list the assets (a GET with no try/except: a transport fault
raises), validate the asset entry and its links, then either skip the
activation POST when the key is already in activated_scenes or request
activation and persist the key as activating before polling; finally the
download section.  The in-memory ledger snapshot loaded at line 415 is
threaded into process_scene_rest. -/
def process_scene (scene : Json) (a_type output_dir : String)
    (activate_only : Bool) : PM Bool := do
  let scene_idJ ← jsonIndex scene "id"
  let scene_id := pyStr scene_idJ
  let propsA ← jsonIndex scene "properties"
  let acquiredJ ← jsonIndex propsA "acquired"
  let _acquired_date := pyHead (pySplit (pyStr acquiredJ) 'T')
  let date_dir ← save_metadata scene output_dir
  let status ← load_status
  let propsB ← jsonIndex scene "properties"
  let item_typeJ ← jsonIndex propsB "item_type"
  let assets_url := assets_url_of (pyStr item_typeJ) scene_id
  let o ← httpRequest HttpMethod.get assets_url
  match o with
  | HttpOutcome.resp code assets =>
      if !(code == 200) then
        pure false
      else if !(assets.hasKey a_type) then
        pure false
      else do
        let asset_data ← jsonIndex assets a_type
        if !(asset_data.hasKey "_links") then
          pure false
        else do
          let links ← jsonIndex asset_data "_links"
          if !(links.hasKey "activate") || !(links.hasKey "_self") then
            pure false
          else do
            let activation_linkJ ← jsonIndex links "activate"
            let self_linkJ ← jsonIndex links "_self"
            let activation_link := pyStr activation_linkJ
            let self_link := pyStr self_linkJ
            let asset_key := scene_id ++ "_" ++ a_type
            if (alookup status.activated_scenes asset_key).isSome then
              if !activate_only then do
                let ok ← wait_for_asset_activation self_link 300 5
                if ok then
                  process_scene_rest activate_only status self_link date_dir
                    scene_id a_type
                else
                  pure false
              else
                process_scene_rest activate_only status self_link date_dir
                  scene_id a_type
            else do
              let ok ← activate_asset activation_link
              if ok then do
                let status2 := { status with
                  activated_scenes := aset status.activated_scenes asset_key "activating" }
                save_status status2
                if !activate_only then do
                  let ok2 ← wait_for_asset_activation self_link 300 5
                  if ok2 then
                    process_scene_rest activate_only status2 self_link date_dir
                      scene_id a_type
                  else
                    pure false
                else
                  process_scene_rest activate_only status2 self_link date_dir
                    scene_id a_type
              else
                pure false
  | _ => PM.raise PyErr.requestError

/-- search_planet_imagery (lines 163-183): POST to the search URL (no
try/except: a transport fault raises); None on a non-200; otherwise the
features list, defaulting to empty via .get. -/
def search_planet_imagery (_search_request : Json) : PM (Option (List Json)) := do
  let o ← httpRequest HttpMethod.post SEARCH_URL
  match o with
  | HttpOutcome.resp code body =>
      if !(code == 200) then
        pure none
      else
        pure (some (match body.lookup? "features" with
                    | some (Json.arr xs) => xs
                    | _ => []))
  | _ => PM.raise PyErr.requestError

/-- display_status_summary (lines 497-526): reads the ledger and logs. -/
def display_status_summary : PM Unit := do
  let _status ← load_status
  pure ()

/-- The inner loop of main over asset types (lines 562-565). -/
def process_asset_types (scene : Json) (output_dir : String)
    (activate_only : Bool) : List String → Nat → PM Nat
  | [], acc => pure acc
  | t :: rest, acc => do
      let ok ← process_scene scene t output_dir activate_only
      process_asset_types scene output_dir activate_only rest
        (if ok then acc + 1 else acc)

/-- The outer loop of main over scenes (lines 560-565). -/
def process_features (asset_types : List String) (output_dir : String)
    (activate_only : Bool) : List Json → Nat → PM Nat
  | [], acc => pure acc
  | scene :: rest, acc => do
      let acc2 ← process_asset_types scene output_dir activate_only asset_types acc
      process_features asset_types output_dir activate_only rest acc2

/-- main (lines 529-574), with the parsed arguments supplied directly:
display the summary, search, return early (with no tally) when the search
fails or yields no features, otherwise process every scene and asset type
and report the success/total tally. -/
def pdMain (output_dir : String) (asset_types : List String)
    (activate_only : Bool) (search_request : Json) : PM Unit := do
  display_status_summary
  let features? ← search_planet_imagery search_request
  match features? with
  | none => pure ()
  | some features =>
      if features.isEmpty then
        pure ()
      else do
        let total_assets := features.length * asset_types.length
        let successful ← process_features asset_types output_dir activate_only
          features 0
        emitEvent (Event.tally successful total_assets)
        display_status_summary

/-- Initial state for a run against an injected HTTP environment: fresh
ledger file, empty disk, clock zero. -/
def initSt (e : Nat → HttpMethod → String → HttpOutcome) : St :=
  { env := e, reqCount := 0, statusFile := none, diskFiles := [], clock := 0 }

/-- A well-formed scene as returned by the search, named S1. -/
def sceneS1 : Json := Json.obj
  [("id", Json.str "S1"),
   ("properties", Json.obj
     [("acquired", Json.str "2024-06-01T12:00:00Z"),
      ("cloud_cover", Json.num 0),
      ("item_type", Json.str "PSScene")])]

/-- A second well-formed scene, named S2. -/
def sceneS2 : Json := Json.obj
  [("id", Json.str "S2"),
   ("properties", Json.obj
     [("acquired", Json.str "2024-06-02T12:00:00Z"),
      ("cloud_cover", Json.num 0),
      ("item_type", Json.str "PSScene")])]

def assetsUrlS1 : String := assets_url_of "PSScene" "S1"

/-- A self link whose slash-split has parts[-4] = S1 and
parts[-1] = ortho_visual, so that the key the code derives from it matches
the key S1_ortho_visual used by process_scene. -/
def selfLinkS1 : String :=
  "https://api.planet.com/data/v1/items/S1/assets/files/ortho_visual"

def activationLinkS1 : String :=
  "https://api.planet.com/data/v1/assets/activate/S1/ortho_visual"

def downloadUrlS1 : String :=
  "https://storage.example.com/S1_ortho_visual.tif"

/-- The assets listing body for S1 offering ortho_visual. -/
def assetsBodyS1 : Json := Json.obj
  [("ortho_visual", Json.obj
     [("_links", Json.obj
        [("activate", Json.str activationLinkS1),
         ("_self", Json.str selfLinkS1)])])]

/-- A status body reporting the asset active with a download location. -/
def statusActiveBody : Json := Json.obj
  [("status", Json.str "active"), ("location", Json.str downloadUrlS1)]

/-- An environment where activation succeeds at once, the asset is
immediately active, and the download succeeds. -/
def happyEnv : Nat → HttpMethod → String → HttpOutcome := fun _ m u =>
  match m with
  | HttpMethod.post =>
      if u == activationLinkS1 then HttpOutcome.resp 202 Json.null
      else HttpOutcome.resp 404 Json.null
  | HttpMethod.get =>
      if u == assetsUrlS1 then HttpOutcome.resp 200 assetsBodyS1
      else if u == selfLinkS1 then HttpOutcome.resp 200 statusActiveBody
      else if u == downloadUrlS1 then HttpOutcome.resp 200 Json.null
      else HttpOutcome.resp 404 Json.null

def happyRun : Except PyErr Bool × St × List Event :=
  process_scene sceneS1 "ortho_visual" "./planet_data" false (initSt happyEnv)

/-- The ledger of a work item that already completed in a previous run. -/
def doneLedger : Ledger :=
  { activated_scenes := [("S1_ortho_visual", "active")],
    downloaded_scenes := [("S1_ortho_visual", true)] }

def rawTifPathS1 : String := "./planet_data/2024/2024-06-01/S1_ortho_visual.tif"

/-- State for re-running the completed item: ledger persisted and the
downloaded file present on disk. -/
def doneSt : St :=
  { env := happyEnv, reqCount := 0, statusFile := some doneLedger,
    diskFiles := [(rawTifPathS1, FileData.whole)], clock := 0 }

def doneRun : Except PyErr Bool × St × List Event :=
  process_scene sceneS1 "ortho_visual" "./planet_data" false doneSt

/-- An environment where the status check reports the asset active with a
download location, and the download stream from that location breaks
midway on every attempt. -/
def downloadBreakEnv : Nat → HttpMethod → String → HttpOutcome := fun _ _ u =>
  if u == "dl" then HttpOutcome.streamBreak
  else HttpOutcome.resp 200
    (Json.obj [("status", Json.str "active"), ("location", Json.str "dl")])

def downloadBreakRun : Except PyErr Bool × St × List Event :=
  download_asset "self" "S1.tif" (initSt downloadBreakEnv)

/-- An environment where the search succeeds with one scene but the
status-check response is a 200 whose JSON body lacks the status field. -/
def malformedEnv : Nat → HttpMethod → String → HttpOutcome := fun _ m u =>
  match m with
  | HttpMethod.post =>
      if u == SEARCH_URL then
        HttpOutcome.resp 200 (Json.obj [("features", Json.arr [sceneS1])])
      else if u == activationLinkS1 then HttpOutcome.resp 202 Json.null
      else HttpOutcome.resp 404 Json.null
  | HttpMethod.get =>
      if u == assetsUrlS1 then HttpOutcome.resp 200 assetsBodyS1
      else if u == selfLinkS1 then
        HttpOutcome.resp 200 (Json.obj [("foo", Json.str "bar")])
      else HttpOutcome.resp 404 Json.null

def malformedRun : Except PyErr Unit × St × List Event :=
  pdMain "./planet_data" ["ortho_visual"] false Json.null (initSt malformedEnv)

/-- An environment where the search returns two scenes and every assets
listing fails with a 500. -/
def allFailEnv : Nat → HttpMethod → String → HttpOutcome := fun _ m u =>
  match m with
  | HttpMethod.post =>
      if u == SEARCH_URL then
        HttpOutcome.resp 200 (Json.obj [("features", Json.arr [sceneS1, sceneS2])])
      else HttpOutcome.resp 404 Json.null
  | HttpMethod.get => HttpOutcome.resp 500 Json.null

def allFailRun : Except PyErr Unit × St × List Event :=
  pdMain "./planet_data" ["basic_analytic_8b", "ortho_visual"] false Json.null
    (initSt allFailEnv)

/-- Number of POST requests in a trace. -/
def postCount (t : List Event) : Nat :=
  t.countP fun e => match e with
    | Event.httpPost _ => true
    | _ => false

/-- Number of network requests (GET or POST) in a trace. -/
def netCount (t : List Event) : Nat :=
  t.countP fun e => match e with
    | Event.httpGet _ => true
    | Event.httpPost _ => true
    | _ => false

/-- Number of GET requests to a given URL in a trace. -/
def getCount (u : String) (t : List Event) : Nat :=
  t.countP fun e => match e with
    | Event.httpGet v => v == u
    | _ => false

def isRenameEvent : Event → Bool
  | Event.renamed _ _ => true
  | _ => false

def isTallyEvent : Event → Bool
  | Event.tally _ _ => true
  | _ => false

/-- The successive ledger snapshots persisted during a run, in order. -/
def ledgerWrites (t : List Event) : List Ledger :=
  t.filterMap fun e => match e with
    | Event.wroteFile _ (FileData.ledgerSnap l) => some l
    | _ => none

/-- The in-memory ledger load_status yields from a state. -/
def ledgerOf (s : St) : Ledger :=
  match s.statusFile with
  | some l => l
  | none => Ledger.empty

/-- A computation that never issues a POST request, from any state. -/
def NoPost {α : Type} (x : PM α) : Prop :=
  ∀ s, postCount (x s).2.2 = 0

/-- A computation that leaves the persisted ledger file untouched. -/
def KeepsStatus {α : Type} (x : PM α) : Prop :=
  ∀ s, ((x s).2.1).statusFile = s.statusFile

/-- The ledger snapshot persisted right after a successful activation
request (process_scene line 464). -/
def ledgerActivating : Ledger :=
  { activated_scenes := [("S1_ortho_visual", "activating")], downloaded_scenes := [] }

/-- The ledger snapshot persisted by wait_for_asset_activation once the
asset polls active (lines 286-288). -/
def ledgerActive : Ledger :=
  { activated_scenes := [("S1_ortho_visual", "active")], downloaded_scenes := [] }

/-- The ledger snapshot persisted after a successful download
(process_scene lines 486-487): the stale in-memory snapshot plus the
downloaded flag. -/
def ledgerFinal : Ledger :=
  { activated_scenes := [("S1_ortho_visual", "activating")],
    downloaded_scenes := [("S1_ortho_visual", true)] }

def metaPathS1 : String := "./planet_data/2024/2024-06-01/S1_metadata.json"

def assetsUrlS2 : String := assets_url_of "PSScene" "S2"

/-- An environment that rate-limits every request. -/
def env429 : Nat → HttpMethod → String → HttpOutcome := fun _ _ _ =>
  HttpOutcome.resp 429 Json.null

/-- An environment whose status checks always answer inactive. -/
def envInactive : Nat → HttpMethod → String → HttpOutcome := fun _ _ _ =>
  HttpOutcome.resp 200 (Json.obj [("status", Json.str "inactive")])

/-- An environment whose status checks always answer active, with no
location (none is needed for polling). -/
def envActive : Nat → HttpMethod → String → HttpOutcome := fun _ _ _ =>
  HttpOutcome.resp 200 (Json.obj [("status", Json.str "active")])

/-- State for the C10 witness: the poll environment always answers active
with a location, the persisted ledger is the completed-item ledger. -/
def c10St : St :=
  { env := fun _ _ _ => HttpOutcome.resp 200 statusActiveBody, reqCount := 0,
    statusFile := some doneLedger, diskFiles := [], clock := 0 }

theorem PM_bind_apply {α β : Type} (x : PM α) (f : α → PM β) (s : St) :
    (x >>= f) s =
      match x s with
      | (Except.ok a, s1, t1) =>
          match f a s1 with
          | (r, s2, t2) => (r, s2, t1 ++ t2)
      | (Except.error e, s1, t1) => (Except.error e, s1, t1) := rfl

theorem PM_pure_apply {α : Type} (a : α) (s : St) :
    (pure a : PM α) s = (Except.ok a, s, []) := rfl

theorem load_status_apply (s : St) :
    load_status s = (Except.ok (ledgerOf s), s, []) := rfl

theorem postCount_append (t1 t2 : List Event) :
    postCount (t1 ++ t2) = postCount t1 + postCount t2 := by
  simp [postCount, List.countP_append]

theorem PM_trace_bind {α β : Type} (x : PM α) (f : α → PM β) (s : St) :
    ((x >>= f) s).2.2 =
      (x s).2.2 ++ (match (x s).1 with
        | Except.ok a => (f a (x s).2.1).2.2
        | Except.error _ => []) := by
  rw [PM_bind_apply]
  rcases x s with ⟨r, s1, t1⟩
  cases r with
  | ok a => rcases f a s1 with ⟨r2, s2, t2⟩; rfl
  | error e => simp

theorem noPost_bind {α β : Type} {x : PM α} {f : α → PM β}
    (hx : NoPost x) (hf : ∀ a, NoPost (f a)) : NoPost (x >>= f) := by
  intro s
  rw [PM_trace_bind, postCount_append, hx s]
  cases hr : (x s).1 with
  | ok a => simpa [hr] using hf a (x s).2.1
  | error e => simp [hr, postCount]

theorem noPost_pure {α : Type} (a : α) : NoPost (pure a : PM α) := by
  intro s
  simp [PM_pure_apply, postCount]

theorem noPost_raise {α : Type} (e : PyErr) : NoPost (PM.raise e : PM α) := by
  intro s
  simp [PM.raise, postCount]

theorem noPost_httpGet (u : String) : NoPost (httpRequest HttpMethod.get u) := by
  intro s
  simp [httpRequest, postCount]

theorem noPost_pmSleep (n : Nat) : NoPost (pmSleep n) := by
  intro s
  simp [pmSleep, postCount]

theorem noPost_timeNow : NoPost timeNow := by
  intro s
  simp [timeNow, postCount]

theorem noPost_load_status : NoPost load_status := by
  intro s
  simp [load_status, postCount]

theorem noPost_save_status (l : Ledger) : NoPost (save_status l) := by
  intro s
  simp [save_status, postCount]

theorem noPost_pathExists (p : String) : NoPost (pathExists p) := by
  intro s
  simp [pathExists, postCount]

theorem noPost_writeDisk (p : String) (d : FileData) : NoPost (writeDisk p d) := by
  intro s
  simp [writeDisk, postCount]

theorem noPost_jsonIndex (j : Json) (k : String) : NoPost (jsonIndex j k) := by
  unfold jsonIndex
  cases j.lookup? k with
  | none => exact noPost_raise _
  | some v => exact noPost_pure _

theorem noPost_ite {α : Type} {c : Prop} [Decidable c] {x y : PM α}
    (hx : NoPost x) (hy : NoPost y) : NoPost (if c then x else y) := by
  by_cases h : c
  · simpa [h] using hx
  · simpa [h] using hy

theorem noPost_gaas_go (u : String) :
    ∀ fuel d, NoPost (get_asset_activation_status_go u fuel d) := by
  intro fuel
  induction fuel with
  | zero => intro d; exact noPost_pure _
  | succ n ih =>
      intro d
      apply noPost_bind (noPost_httpGet u)
      intro o
      cases o with
      | resp code body =>
          dsimp only
          refine noPost_ite (noPost_pure _) ?_
          refine noPost_ite (noPost_bind (noPost_pmSleep _) fun _ => ih _) ?_
          refine noPost_ite ?_ ?_
          · exact noPost_bind (noPost_pmSleep _) fun _ => ih _
          · exact noPost_bind (noPost_pure _) fun _ => ih _
      | exn =>
          dsimp only
          refine noPost_ite ?_ ?_
          · exact noPost_bind (noPost_pmSleep _) fun _ => ih _
          · exact noPost_bind (noPost_pure _) fun _ => ih _
      | streamBreak =>
          dsimp only
          refine noPost_ite ?_ ?_
          · exact noPost_bind (noPost_pmSleep _) fun _ => ih _
          · exact noPost_bind (noPost_pure _) fun _ => ih _

theorem noPost_gaas (u : String) : NoPost (get_asset_activation_status u) :=
  noPost_gaas_go u 3 2

theorem noPost_wait_go (u : String) (key : Option String)
    (st0 timeout interval : Nat) :
    ∀ fuel, NoPost (wait_go u key st0 timeout interval fuel) := by
  intro fuel
  induction fuel with
  | zero => exact noPost_pure _
  | succ n ih =>
      apply noPost_bind noPost_timeNow
      intro now
      refine noPost_ite ?_ (noPost_pure _)
      apply noPost_bind (noPost_gaas u)
      intro r
      cases r with
      | none => exact noPost_pure _
      | some st =>
          dsimp only
          refine noPost_ite (noPost_pure _) ?_
          apply noPost_bind (noPost_jsonIndex _ _)
          intro sv
          refine noPost_ite ?_ (noPost_bind (noPost_pmSleep _) fun _ => ih)
          cases key with
          | some k =>
              apply noPost_bind noPost_load_status
              intro status
              refine noPost_ite ?_ (noPost_pure _)
              exact noPost_bind (noPost_save_status _) fun _ => noPost_pure _
          | none => exact noPost_pure _

theorem noPost_wait (u : String) (timeout interval : Nat) :
    NoPost (wait_for_asset_activation u timeout interval) := by
  apply noPost_bind noPost_timeNow
  intro st0
  exact noPost_wait_go u _ st0 timeout interval _

theorem noPost_download_go (u p : String) :
    ∀ fuel d, NoPost (download_go u p fuel d) := by
  intro fuel
  induction fuel with
  | zero => intro d; exact noPost_pure _
  | succ n ih =>
      intro d
      apply noPost_bind (noPost_httpGet u)
      intro o
      cases o with
      | resp code body =>
          dsimp only
          refine noPost_ite (noPost_bind (noPost_writeDisk _ _) fun _ => noPost_pure _) ?_
          refine noPost_ite (noPost_bind (noPost_pmSleep _) fun _ => ih _) ?_
          refine noPost_ite ?_ (ih _)
          exact noPost_bind (noPost_pmSleep _) fun _ => ih _
      | exn =>
          dsimp only
          refine noPost_ite ?_ (ih _)
          exact noPost_bind (noPost_pmSleep _) fun _ => ih _
      | streamBreak =>
          apply noPost_bind (noPost_writeDisk _ _)
          intro _
          refine noPost_ite ?_ (ih _)
          exact noPost_bind (noPost_pmSleep _) fun _ => ih _

theorem noPost_download_asset (u p : String) : NoPost (download_asset u p) := by
  apply noPost_bind (noPost_gaas u)
  intro r
  cases r with
  | none => exact noPost_pure _
  | some st =>
      dsimp only
      refine noPost_ite (noPost_pure _) ?_
      apply noPost_bind (noPost_jsonIndex _ _)
      intro sv
      refine noPost_ite (noPost_pure _) ?_
      refine noPost_ite (noPost_pure _) ?_
      apply noPost_bind (noPost_jsonIndex _ _)
      intro dl
      exact noPost_download_go _ _ _ _

theorem noPost_save_metadata (scene : Json) (d : String) :
    NoPost (save_metadata scene d) := by
  apply noPost_bind (noPost_jsonIndex _ _)
  intro a
  apply noPost_bind (noPost_jsonIndex _ _)
  intro b
  apply noPost_bind (noPost_jsonIndex _ _)
  intro c
  apply noPost_bind (noPost_jsonIndex _ _)
  intro e
  apply noPost_bind (noPost_jsonIndex _ _)
  intro f
  apply noPost_bind (noPost_jsonIndex _ _)
  intro g
  exact noPost_bind (noPost_writeDisk _ _) fun _ => noPost_pure _

theorem noPost_process_scene_rest (ao : Bool) (l : Ledger)
    (sl dd sid ty : String) : NoPost (process_scene_rest ao l sl dd sid ty) := by
  unfold process_scene_rest
  refine noPost_ite (noPost_pure _) ?_
  apply noPost_bind (noPost_pathExists _)
  intro onDisk
  refine noPost_ite (noPost_pure _) ?_
  apply noPost_bind (noPost_download_asset _ _)
  intro ok
  refine noPost_ite ?_ (noPost_pure _)
  exact noPost_bind (noPost_save_status _) fun _ => noPost_pure _

theorem PM_state_bind {α β : Type} (x : PM α) (f : α → PM β) (s : St) :
    ((x >>= f) s).2.1 =
      match (x s).1 with
      | Except.ok a => (f a (x s).2.1).2.1
      | Except.error _ => (x s).2.1 := by
  rw [PM_bind_apply]
  rcases x s with ⟨r, s1, t1⟩
  cases r with
  | ok a => rcases f a s1 with ⟨r2, s2, t2⟩; rfl
  | error e => rfl

theorem keeps_bind {α β : Type} {x : PM α} {f : α → PM β}
    (hx : KeepsStatus x) (hf : ∀ a, KeepsStatus (f a)) : KeepsStatus (x >>= f) := by
  intro s
  rw [PM_state_bind]
  cases hr : (x s).1 with
  | ok a =>
      dsimp only
      rw [hf a (x s).2.1, hx s]
  | error e =>
      dsimp only
      rw [hx s]

theorem keeps_pure {α : Type} (a : α) : KeepsStatus (pure a : PM α) := by
  intro s; rfl

theorem keeps_jsonIndex (j : Json) (k : String) : KeepsStatus (jsonIndex j k) := by
  intro s
  unfold jsonIndex
  cases j.lookup? k <;> rfl

theorem keeps_writeDisk (p : String) (d : FileData) : KeepsStatus (writeDisk p d) := by
  intro s; rfl

theorem keeps_save_metadata (scene : Json) (d : String) :
    KeepsStatus (save_metadata scene d) := by
  apply keeps_bind (keeps_jsonIndex _ _)
  intro a
  apply keeps_bind (keeps_jsonIndex _ _)
  intro b
  apply keeps_bind (keeps_jsonIndex _ _)
  intro c
  apply keeps_bind (keeps_jsonIndex _ _)
  intro e
  apply keeps_bind (keeps_jsonIndex _ _)
  intro f
  apply keeps_bind (keeps_jsonIndex _ _)
  intro g
  exact keeps_bind (keeps_writeDisk _ _) fun _ => keeps_pure _

theorem ledgerOf_congr {a b : St} (h : a.statusFile = b.statusFile) :
    ledgerOf a = ledgerOf b := by
  unfold ledgerOf
  rw [h]

theorem jsonIndex_apply (j : Json) (k : String) (s : St) :
    jsonIndex j k s =
      match j.lookup? k with
      | some v => (Except.ok v, s, [])
      | none => (Except.error (PyErr.keyError k), s, []) := by
  unfold jsonIndex
  cases j.lookup? k <;> rfl

theorem httpRequest_apply (m : HttpMethod) (u : String) (s : St) :
    httpRequest m u s =
      (Except.ok (s.env s.reqCount m u),
       { s with reqCount := s.reqCount + 1 },
       [match m with
        | HttpMethod.get => Event.httpGet u
        | HttpMethod.post => Event.httpPost u]) := rfl

theorem jsonIndex_trace (j : Json) (k : String) (s : St) :
    (jsonIndex j k s).2.2 = [] := by
  unfold jsonIndex
  cases j.lookup? k <;> rfl

theorem jsonIndex_state (j : Json) (k : String) (s : St) :
    (jsonIndex j k s).2.1 = s := by
  unfold jsonIndex
  cases j.lookup? k <;> rfl

theorem jsonIndex_res (j : Json) (k : String) (s : St) :
    (jsonIndex j k s).1 =
      match j.lookup? k with
      | some v => Except.ok v
      | none => Except.error (PyErr.keyError k) := by
  unfold jsonIndex
  cases j.lookup? k <;> rfl

theorem postCount_nil : postCount [] = 0 := rfl

theorem pyStr_str (x : String) : pyStr (Json.str x) = x := rfl

theorem postCount_getEvent (u : String) : postCount [Event.httpGet u] = 0 := rfl

/-- Any process_scene run that finds the asset key already present in the
activated_scenes map of the persisted ledger takes the already-activated
branch: it issues no POST request at all, whatever the environment
responds, whatever the rest of the state holds and whatever mode is
selected.  This is the general half of the idempotent-activation claim:
once the key is in the ledger, requestActivation is never re-entered. -/
theorem process_scene_no_post_when_activated
    (scene : Json) (a_type output_dir : String) (ao : Bool) (sid : String)
    (hid : Json.lookup? scene "id" = some (Json.str sid)) :
    ∀ s : St,
      (alookup (ledgerOf s).activated_scenes (sid ++ "_" ++ a_type)).isSome = true →
      postCount ((process_scene scene a_type output_dir ao) s).2.2 = 0 := by
  intro s hk
  unfold process_scene
  rw [PM_trace_bind, postCount_append, jsonIndex_trace, jsonIndex_res,
    jsonIndex_state, hid, postCount_nil, Nat.zero_add]
  simp only [pyStr_str]
  rw [PM_trace_bind, postCount_append, jsonIndex_trace, jsonIndex_res,
    jsonIndex_state, postCount_nil, Nat.zero_add]
  cases hp : Json.lookup? scene "properties" with
  | none => exact postCount_nil
  | some propsA =>
  dsimp only
  rw [PM_trace_bind, postCount_append, jsonIndex_trace, jsonIndex_res,
    jsonIndex_state, postCount_nil, Nat.zero_add]
  cases ha : propsA.lookup? "acquired" with
  | none => exact postCount_nil
  | some acq =>
  dsimp only
  rw [PM_trace_bind, postCount_append, noPost_save_metadata scene output_dir s,
    Nat.zero_add]
  cases hsm : (save_metadata scene output_dir s).1 with
  | error e => exact postCount_nil
  | ok date_dir =>
  dsimp only
  rw [PM_trace_bind, postCount_append, load_status_apply, postCount_nil,
    Nat.zero_add]
  dsimp only
  rw [ledgerOf_congr (keeps_save_metadata scene output_dir s)]
  rw [PM_trace_bind, postCount_append, jsonIndex_trace, jsonIndex_res,
    jsonIndex_state, hp, postCount_nil, Nat.zero_add]
  dsimp only
  rw [PM_trace_bind, postCount_append, jsonIndex_trace, jsonIndex_res,
    jsonIndex_state, postCount_nil, Nat.zero_add]
  cases hit : propsA.lookup? "item_type" with
  | none => exact postCount_nil
  | some itJ =>
  dsimp only
  rw [PM_trace_bind, postCount_append, httpRequest_apply]
  dsimp only
  rw [postCount_getEvent, Nat.zero_add]
  cases ho : ((save_metadata scene output_dir s).2.1).env
      ((save_metadata scene output_dir s).2.1).reqCount HttpMethod.get
      (assets_url_of (pyStr itJ) sid) with
  | exn => exact postCount_nil
  | streamBreak => exact postCount_nil
  | resp code assets =>
  dsimp only
  cases hcode : code == 200 with
  | false => simp [hcode, PM_pure_apply, postCount]
  | true =>
  cases hhk : assets.hasKey a_type with
  | false => simp [hcode, hhk, PM_pure_apply, postCount]
  | true =>
  simp only [hcode, hhk, Bool.not_true, Bool.false_eq_true, if_false,
    Bool.not_false, Bool.true_eq_false, if_true]
  rw [Json.hasKey] at hhk
  obtain ⟨ad, had⟩ := Option.isSome_iff_exists.mp hhk
  rw [PM_trace_bind, postCount_append, jsonIndex_trace, jsonIndex_res,
    jsonIndex_state, had, postCount_nil, Nat.zero_add]
  dsimp only
  cases hlk : ad.hasKey "_links" with
  | false => simp [hlk, PM_pure_apply, postCount]
  | true =>
  simp only [hlk, Bool.not_true, Bool.false_eq_true, if_false]
  rw [Json.hasKey] at hlk
  obtain ⟨links, hlinks⟩ := Option.isSome_iff_exists.mp hlk
  rw [PM_trace_bind, postCount_append, jsonIndex_trace, jsonIndex_res,
    jsonIndex_state, hlinks, postCount_nil, Nat.zero_add]
  dsimp only
  cases hact : links.hasKey "activate" with
  | false => simp [hact, PM_pure_apply, postCount]
  | true =>
  cases hself : links.hasKey "_self" with
  | false => simp [hact, hself, PM_pure_apply, postCount]
  | true =>
  simp only [hact, hself, Bool.not_true, Bool.or_self, Bool.false_eq_true,
    if_false]
  rw [Json.hasKey] at hact hself
  obtain ⟨actJ, hactJ⟩ := Option.isSome_iff_exists.mp hact
  obtain ⟨selfJ, hselfJ⟩ := Option.isSome_iff_exists.mp hself
  rw [PM_trace_bind, postCount_append, jsonIndex_trace, jsonIndex_res,
    jsonIndex_state, hactJ, postCount_nil, Nat.zero_add]
  dsimp only
  rw [PM_trace_bind, postCount_append, jsonIndex_trace, jsonIndex_res,
    jsonIndex_state, hselfJ, postCount_nil, Nat.zero_add]
  dsimp only
  simp only [hk, if_true]
  cases ao with
  | false =>
      simp only [Bool.not_false, if_true]
      refine (noPost_bind (noPost_wait _ _ _) fun ok => ?_) _
      cases ok with
      | true => simpa using noPost_process_scene_rest _ _ _ _ _ _
      | false => exact noPost_pure _
  | true =>
      simp only [Bool.not_true, Bool.false_eq_true, if_false]
      exact noPost_process_scene_rest _ _ _ _ _ _ _

theorem alookup_aset_self {α : Type} (l : List (String × α)) (k : String) (v : α) :
    alookup (aset l k v) k = some v := by
  induction l with
  | nil => simp [aset, alookup]
  | cons h t ih =>
      rcases h with ⟨k1, v1⟩
      cases hb : k1 == k with
      | true => simp [aset, alookup, hb]
      | false => simp [aset, alookup, hb, ih]

theorem alookup_aset_ne {α : Type} (l : List (String × α)) (k k2 : String)
    (v : α) (h : k2 ≠ k) : alookup (aset l k v) k2 = alookup l k2 := by
  induction l with
  | nil =>
      have hb : (k == k2) = false := by
        simp [beq_iff_eq]
        exact fun he => h he.symm
      simp [aset, alookup, hb]
  | cons hd t ih =>
      rcases hd with ⟨k1, v1⟩
      cases hb : k1 == k with
      | true =>
          have hk1 : k1 = k := by simpa [beq_iff_eq] using hb
          have hb2 : (k1 == k2) = false := by
            simp [beq_iff_eq, hk1]
            exact fun he => h he.symm
          simp [aset, alookup, hb, hb2]
      | false => simp [aset, alookup, hb, ih]

/-- C2: the claim says the activation state of a key never regresses once
it is active.  The code violates this: in a fresh successful run,
process_scene loads the ledger once, wait_for_asset_activation separately
persists the key as active, and the post-download save_status then rewrites
the whole file from the stale in-memory snapshot, putting the key back to
activating.  The persisted snapshots are, in order: activating, active,
activating again (with downloaded set); the final persisted state of the
key is activating even though the run succeeded. -/
theorem C2_activation_state_regresses :
    happyRun.1 = Except.ok true ∧
    ledgerWrites happyRun.2.2 = [ledgerActivating, ledgerActive, ledgerFinal] ∧
    (match happyRun.2.1.statusFile with
     | some l => alookup l.activated_scenes "S1_ortho_visual"
     | none => none) = some "activating" :=
  ⟨rfl, rfl, rfl⟩

/-- C3 counterexample: a work item whose ledger entry shows downloaded and
whose destination file exists on disk still causes two network calls (the
assets-listing GET and one activation poll GET), not zero as claimed. -/
theorem C3_zero_network_calls_refuted :
    (match doneSt.statusFile with
     | some l => alookup l.downloaded_scenes "S1_ortho_visual"
     | none => none) = some true ∧
    (alookup doneSt.diskFiles rawTifPathS1).isSome = true ∧
    doneRun.1 = Except.ok true ∧
    netCount doneRun.2.2 = 2 :=
  ⟨rfl, rfl, rfl, by decide⟩

/-- C3 as amended: for the completed work item the orchestrator still
issues the assets-listing GET and polls activation, but it skips only the
download: no request to the download location, no truncating open of the
destination file, and no POST; the item succeeds. -/
theorem C3_download_skip_only :
    doneRun.1 = Except.ok true ∧
    doneRun.2.2 =
      [Event.openTrunc metaPathS1,
       Event.wroteFile metaPathS1 FileData.metaSnap,
       Event.httpGet assetsUrlS1,
       Event.httpGet selfLinkS1,
       Event.openTrunc statusFileName,
       Event.wroteFile statusFileName (FileData.ledgerSnap doneLedger)] ∧
    getCount downloadUrlS1 doneRun.2.2 = 0 ∧
    (∀ e ∈ doneRun.2.2, e ≠ Event.openTrunc rawTifPathS1) ∧
    postCount doneRun.2.2 = 0 :=
  ⟨rfl, rfl, by decide, by decide, by decide⟩

/-- C5 counterexample: save_status writes the snapshot straight into
planet_status.json, truncating it in place; the trace holds no rename
event at all, so the persisted snapshot is not replaced via a temporary
file plus rename as the claim states. -/
theorem C5_temp_and_rename_refuted :
    (save_status doneLedger (initSt happyEnv)).2.2 =
      [Event.openTrunc statusFileName,
       Event.wroteFile statusFileName (FileData.ledgerSnap doneLedger)] ∧
    (∀ e ∈ (save_status doneLedger (initSt happyEnv)).2.2,
      isRenameEvent e = false) :=
  ⟨rfl, by decide⟩

/-- C5 as amended: for every ledger and every state, save_status opens the
status file for writing (truncating the previous snapshot in place) and
dumps the new snapshot directly; there is no temporary file and no rename
anywhere in its trace. -/
theorem C5_save_writes_in_place (l : Ledger) (s : St) :
    save_status l s =
      (Except.ok (), { s with statusFile := some l },
       [Event.openTrunc statusFileName,
        Event.wroteFile statusFileName (FileData.ledgerSnap l)]) ∧
    (∀ e ∈ (save_status l s).2.2, isRenameEvent e = false) := by
  refine ⟨rfl, ?_⟩
  intro e he
  simp [save_status] at he
  rcases he with rfl | rfl <;> rfl

/-- C8 counterexample: the status check reports the asset active with a
resolved location, yet every download attempt breaks midway; each of the
three attempts truncates and partially rewrites the destination file in
place, so after the failed call a partially written download occupies the
final destination path. -/
theorem C8_partial_file_at_final_path :
    downloadBreakRun.1 = Except.ok false ∧
    alookup downloadBreakRun.2.1.diskFiles "S1.tif" = some FileData.truncated ∧
    getCount "dl" downloadBreakRun.2.2 = 3 ∧
    Event.wroteFile "S1.tif" FileData.truncated ∈ downloadBreakRun.2.2 :=
  ⟨rfl, rfl, by decide, by decide⟩

/-- C8 as amended: in the successful run the downloaded flag is persisted
only after the poll reported the asset active and after the complete body
was streamed directly into the destination path (a truncating open of the
final path itself, no temporary file, no rename anywhere). -/
theorem C8_download_direct_write :
    happyRun.1 = Except.ok true ∧
    (∀ e ∈ happyRun.2.2, isRenameEvent e = false) ∧
    Event.openTrunc rawTifPathS1 ∈ happyRun.2.2 ∧
    List.indexOf (Event.wroteFile statusFileName (FileData.ledgerSnap ledgerActive))
        happyRun.2.2 <
      List.indexOf (Event.httpGet downloadUrlS1) happyRun.2.2 ∧
    List.indexOf (Event.wroteFile rawTifPathS1 FileData.whole) happyRun.2.2 <
      List.indexOf (Event.wroteFile statusFileName (FileData.ledgerSnap ledgerFinal))
        happyRun.2.2 ∧
    (match happyRun.2.1.statusFile with
     | some l => alookup l.downloaded_scenes "S1_ortho_visual"
     | none => none) = some true :=
  ⟨rfl, by decide, by decide, by decide, by decide, rfl⟩

/-- C9 counterexample: a batch whose only work item receives a 200
status-check response lacking the status field does not complete: the
KeyError escapes wait_for_asset_activation, crosses process_scene and main,
and no success/total tally is ever reported. -/
theorem C9_uncaught_error_aborts_batch :
    malformedRun.1 = Except.error (PyErr.keyError "status") ∧
    (∀ e ∈ malformedRun.2.2, isTallyEvent e = false) :=
  ⟨rfl, by decide⟩

/-- C9 as amended: failures that the code detects through status codes are
local to one work item: with two scenes and two asset types whose assets
listings all answer 500, all four items are attempted (two GETs per
scene), the run finishes without an exception and reports the 0/4 tally. -/
theorem C9_batch_completes_on_status_failures :
    allFailRun.1 = Except.ok () ∧
    Event.tally 0 4 ∈ allFailRun.2.2 ∧
    getCount assetsUrlS1 allFailRun.2.2 = 2 ∧
    getCount assetsUrlS2 allFailRun.2.2 = 2 :=
  ⟨rfl, by decide, by decide, by decide⟩

theorem isFalsy_false_of_lookup {body : Json} {k : String} {v : Json}
    (h : body.lookup? k = some v) : body.isFalsy = false := by
  cases body with
  | obj fields =>
      cases fields with
      | nil => simp [Json.lookup?, alookup] at h
      | cons hd tl => simp [Json.isFalsy]
  | null => simp [Json.lookup?] at h
  | str s => simp [Json.lookup?] at h
  | num n => simp [Json.lookup?] at h
  | bool b => simp [Json.lookup?] at h
  | arr xs => simp [Json.lookup?] at h

/-- C1: idempotent activation.  In the fresh run against an immediately
active provider the trace holds exactly one POST; the activating snapshot
is persisted before the first poll of the self link; a second run from the
state the first left behind issues no POST at all; and in full generality
any run that finds the key already in activated_scenes issues no POST,
for every scene, asset type, mode, state and environment. -/
theorem C1_idempotent_activation :
    postCount happyRun.2.2 = 1 ∧
    happyRun.2.2 =
      [Event.openTrunc metaPathS1,
       Event.wroteFile metaPathS1 FileData.metaSnap,
       Event.httpGet assetsUrlS1,
       Event.httpPost activationLinkS1,
       Event.openTrunc statusFileName,
       Event.wroteFile statusFileName (FileData.ledgerSnap ledgerActivating),
       Event.httpGet selfLinkS1,
       Event.openTrunc statusFileName,
       Event.wroteFile statusFileName (FileData.ledgerSnap ledgerActive),
       Event.httpGet selfLinkS1,
       Event.httpGet downloadUrlS1,
       Event.openTrunc rawTifPathS1,
       Event.wroteFile rawTifPathS1 FileData.whole,
       Event.openTrunc statusFileName,
       Event.wroteFile statusFileName (FileData.ledgerSnap ledgerFinal)] ∧
    List.indexOf (Event.wroteFile statusFileName (FileData.ledgerSnap ledgerActivating))
        happyRun.2.2 <
      List.indexOf (Event.httpGet selfLinkS1) happyRun.2.2 ∧
    postCount (process_scene sceneS1 "ortho_visual" "./planet_data" false
      happyRun.2.1).2.2 = 0 ∧
    (∀ (scene : Json) (a_type output_dir : String) (ao : Bool) (sid : String)
        (s : St),
      Json.lookup? scene "id" = some (Json.str sid) →
      (alookup (ledgerOf s).activated_scenes (sid ++ "_" ++ a_type)).isSome = true →
      postCount ((process_scene scene a_type output_dir ao) s).2.2 = 0) :=
  ⟨by decide, rfl, by decide, by decide,
   fun scene a_type output_dir ao sid s hid hk =>
     process_scene_no_post_when_activated scene a_type output_dir ao sid hid s hk⟩

/-- C1 witness: the general no-re-POST part applied to the concrete
completed-item state. -/
theorem C1_idempotent_activation_witness :
    Json.lookup? sceneS1 "id" = some (Json.str "S1") ∧
    (alookup (ledgerOf doneSt).activated_scenes ("S1" ++ "_" ++ "ortho_visual")).isSome
      = true ∧
    postCount ((process_scene sceneS1 "ortho_visual" "./planet_data" false)
      doneSt).2.2 = 0 :=
  ⟨rfl, rfl,
   C1_idempotent_activation.2.2.2.2 sceneS1 "ortho_visual" "./planet_data"
     false "S1" doneSt rfl rfl⟩

/-- C4: against an environment that always answers 429, both retrying
clients make exactly three attempts with waits of 2, 4 and 8 seconds, and
then report their sentinel failure (None for the status client, False for
the activation client) without raising. -/
theorem C4_retry_ceiling (s : St) (b : Json)
    (henv : ∀ n m u, s.env n m u = HttpOutcome.resp 429 b) (gurl purl : String) :
    (get_asset_activation_status gurl s).1 = Except.ok none ∧
    (get_asset_activation_status gurl s).2.2 =
      [Event.httpGet gurl, Event.slept 2, Event.httpGet gurl, Event.slept 4,
       Event.httpGet gurl, Event.slept 8] ∧
    (activate_asset purl s).1 = Except.ok false ∧
    (activate_asset purl s).2.2 =
      [Event.httpPost purl, Event.slept 2, Event.httpPost purl, Event.slept 4,
       Event.httpPost purl, Event.slept 8] := by
  refine ⟨?_, ?_, ?_, ?_⟩ <;>
    simp [get_asset_activation_status, get_asset_activation_status_go,
      activate_asset, activate_asset_go, httpRequest, pmSleep, henv,
      PM_bind_apply, PM_pure_apply]

theorem C4_retry_ceiling_witness :
    (get_asset_activation_status "st" (initSt env429)).1 = Except.ok none ∧
    (get_asset_activation_status "st" (initSt env429)).2.2 =
      [Event.httpGet "st", Event.slept 2, Event.httpGet "st", Event.slept 4,
       Event.httpGet "st", Event.slept 8] ∧
    (activate_asset "act" (initSt env429)).1 = Except.ok false ∧
    (activate_asset "act" (initSt env429)).2.2 =
      [Event.httpPost "act", Event.slept 2, Event.httpPost "act", Event.slept 4,
       Event.httpPost "act", Event.slept 8] :=
  C4_retry_ceiling (initSt env429) Json.null (fun _ _ _ => rfl) "st" "act"

set_option maxRecDepth 16384 in
/-- C6: whenever the re-fetched status has a status value other than
active, or lacks a location field, download_asset returns False after the
single status GET: no download request is made, nothing is written to
disk, and the ledger file is untouched, for every self link and every
destination path. -/
theorem C6_download_precondition (url out : String) (s : St) (body sv : Json)
    (henv : ∀ n, s.env n HttpMethod.get url = HttpOutcome.resp 200 body)
    (hstatus : body.lookup? "status" = some sv)
    (hfail : jsonEqStr sv "active" = false ∨ body.hasKey "location" = false) :
    (download_asset url out s).1 = Except.ok false ∧
    (download_asset url out s).2.2 = [Event.httpGet url] ∧
    (download_asset url out s).2.1.statusFile = s.statusFile ∧
    (download_asset url out s).2.1.diskFiles = s.diskFiles := by
  have hfalsy := isFalsy_false_of_lookup hstatus
  cases hjs : jsonEqStr sv "active" with
  | false =>
      refine ⟨?_, ?_, ?_, ?_⟩ <;>
        simp [download_asset, get_asset_activation_status,
          get_asset_activation_status_go, httpRequest, jsonIndex, henv, hstatus,
          hfalsy, hjs, PM_bind_apply, PM_pure_apply]
  | true =>
      have hloc : body.hasKey "location" = false := by
        rcases hfail with hf | hf
        · rw [hjs] at hf
          exact absurd hf (by decide)
        · exact hf
      refine ⟨?_, ?_, ?_, ?_⟩ <;>
        simp [download_asset, get_asset_activation_status,
          get_asset_activation_status_go, httpRequest, jsonIndex, henv, hstatus,
          hfalsy, hjs, hloc, PM_bind_apply, PM_pure_apply]

theorem C6_download_precondition_witness :
    (download_asset "self" "out.tif" (initSt envInactive)).1 = Except.ok false ∧
    (download_asset "self" "out.tif" (initSt envInactive)).2.2 =
      [Event.httpGet "self"] ∧
    (download_asset "self" "out.tif" (initSt envInactive)).2.1.statusFile =
      (initSt envInactive).statusFile ∧
    (download_asset "self" "out.tif" (initSt envInactive)).2.1.diskFiles =
      (initSt envInactive).diskFiles :=
  C6_download_precondition "self" "out.tif" (initSt envInactive)
    (Json.obj [("status", Json.str "inactive")]) (Json.str "inactive")
    (fun _ => rfl) rfl (Or.inl rfl)

set_option maxRecDepth 16384 in
/-- One polling iteration when the provider reports active at once and no
asset key was derived from the self link: poll succeeds with a single GET
and the ledger file is untouched.  Timeout and interval stay symbolic so
the loop unfolds exactly one step. -/
theorem wait_first_active_nokey (url : String) (timeout interval : Nat)
    (s : St) (body : Json)
    (htime : 0 < timeout)
    (henv : ∀ n, s.env n HttpMethod.get url = HttpOutcome.resp 200 body)
    (hstatus : body.lookup? "status" = some (Json.str "active"))
    (hkey : derive_asset_key url = none) :
    (wait_for_asset_activation url timeout interval s).1 = Except.ok true ∧
    (wait_for_asset_activation url timeout interval s).2.2 = [Event.httpGet url] ∧
    (wait_for_asset_activation url timeout interval s).2.1.statusFile = s.statusFile := by
  have hfalsy := isFalsy_false_of_lookup hstatus
  refine ⟨?_, ?_, ?_⟩ <;>
    simp [wait_for_asset_activation, wait_go, timeNow, hkey,
      get_asset_activation_status, get_asset_activation_status_go, httpRequest,
      jsonIndex, henv, hstatus, hfalsy, jsonEqStr, Nat.sub_self, htime,
      PM_bind_apply, PM_pure_apply]

set_option maxRecDepth 16384 in
/-- One polling iteration, key derived but absent from activated_scenes:
poll succeeds with a single GET and without saving the ledger. -/
theorem wait_first_active_key_absent (url k : String) (timeout interval : Nat)
    (s : St) (body : Json) (L : Ledger)
    (htime : 0 < timeout)
    (henv : ∀ n, s.env n HttpMethod.get url = HttpOutcome.resp 200 body)
    (hstatus : body.lookup? "status" = some (Json.str "active"))
    (hkey : derive_asset_key url = some k)
    (hfile : s.statusFile = some L)
    (halk : alookup L.activated_scenes k = none) :
    (wait_for_asset_activation url timeout interval s).1 = Except.ok true ∧
    (wait_for_asset_activation url timeout interval s).2.1.statusFile = some L ∧
    (wait_for_asset_activation url timeout interval s).2.2 = [Event.httpGet url] := by
  have hfalsy := isFalsy_false_of_lookup hstatus
  refine ⟨?_, ?_, ?_⟩ <;>
    simp [wait_for_asset_activation, wait_go, timeNow, hkey, load_status,
      ledgerOf, get_asset_activation_status, get_asset_activation_status_go,
      httpRequest, jsonIndex, henv, hstatus, hfalsy, jsonEqStr, Nat.sub_self,
      htime, hfile, halk, PM_bind_apply, PM_pure_apply]

set_option maxRecDepth 16384 in
/-- One polling iteration, key derived and present in activated_scenes:
poll succeeds and the whole ledger is rewritten with that one entry set to
active. -/
theorem wait_first_active_key_present (url k : String) (timeout interval : Nat)
    (s : St) (body : Json) (L : Ledger) (v : String)
    (htime : 0 < timeout)
    (henv : ∀ n, s.env n HttpMethod.get url = HttpOutcome.resp 200 body)
    (hstatus : body.lookup? "status" = some (Json.str "active"))
    (hkey : derive_asset_key url = some k)
    (hfile : s.statusFile = some L)
    (halk : alookup L.activated_scenes k = some v) :
    (wait_for_asset_activation url timeout interval s).1 = Except.ok true ∧
    (wait_for_asset_activation url timeout interval s).2.1.statusFile =
      some { L with activated_scenes := aset L.activated_scenes k "active" } := by
  have hfalsy := isFalsy_false_of_lookup hstatus
  refine ⟨?_, ?_⟩ <;>
    simp [wait_for_asset_activation, wait_go, timeNow, hkey, load_status,
      ledgerOf, save_status, get_asset_activation_status,
      get_asset_activation_status_go, httpRequest, jsonIndex, henv, hstatus,
      hfalsy, jsonEqStr, Nat.sub_self, htime, hfile, halk,
      PM_bind_apply, PM_pure_apply]

/-- C7: for a self link whose slash-split has fewer than 8 pieces, polling
still succeeds as soon as the provider reports active, but no asset key is
derived, so the ledger update is skipped: the persisted ledger file is
exactly what it was, and the only event is the single status GET. -/
theorem C7_soft_inconsistency (url : String) (s : St) (body : Json)
    (henv : ∀ n, s.env n HttpMethod.get url = HttpOutcome.resp 200 body)
    (hstatus : body.lookup? "status" = some (Json.str "active"))
    (hshape : (pySplit url '/').length < 8) :
    (wait_for_asset_activation url 300 5 s).1 = Except.ok true ∧
    (wait_for_asset_activation url 300 5 s).2.2 = [Event.httpGet url] ∧
    (wait_for_asset_activation url 300 5 s).2.1.statusFile = s.statusFile := by
  have hkey : derive_asset_key url = none := by
    unfold derive_asset_key
    simp [Nat.not_le.mpr hshape]
  exact wait_first_active_nokey url 300 5 s body (by decide) henv hstatus hkey

theorem C7_soft_inconsistency_witness :
    (wait_for_asset_activation "a/b" 300 5 (initSt envActive)).1 = Except.ok true ∧
    (wait_for_asset_activation "a/b" 300 5 (initSt envActive)).2.2 =
      [Event.httpGet "a/b"] ∧
    (wait_for_asset_activation "a/b" 300 5 (initSt envActive)).2.1.statusFile =
      (initSt envActive).statusFile :=
  C7_soft_inconsistency "a/b" (initSt envActive)
    (Json.obj [("status", Json.str "active")]) (fun _ => rfl) rfl (by decide)

/-- C10: a successful poll writes active for the derived key only when the
key is already present in activated_scenes; when the key is absent the
persisted ledger file is left exactly as it was (no key is inserted), and
when it is present only that entry changes: every other key of
activated_scenes and the whole downloaded_scenes map are unchanged. -/
theorem C10_poll_updates_only_existing (url k : String) (s : St) (body : Json)
    (L : Ledger)
    (henv : ∀ n, s.env n HttpMethod.get url = HttpOutcome.resp 200 body)
    (hstatus : body.lookup? "status" = some (Json.str "active"))
    (hkey : derive_asset_key url = some k)
    (hfile : s.statusFile = some L) :
    (alookup L.activated_scenes k = none →
      (wait_for_asset_activation url 300 5 s).1 = Except.ok true ∧
      (wait_for_asset_activation url 300 5 s).2.1.statusFile = some L ∧
      (wait_for_asset_activation url 300 5 s).2.2 = [Event.httpGet url]) ∧
    (∀ v, alookup L.activated_scenes k = some v →
      (wait_for_asset_activation url 300 5 s).1 = Except.ok true ∧
      (wait_for_asset_activation url 300 5 s).2.1.statusFile =
        some { L with activated_scenes := aset L.activated_scenes k "active" } ∧
      alookup (aset L.activated_scenes k "active") k = some "active" ∧
      (∀ k2, k2 ≠ k →
        alookup (aset L.activated_scenes k "active") k2 =
          alookup L.activated_scenes k2) ∧
      ({ L with activated_scenes := aset L.activated_scenes k "active" }
        ).downloaded_scenes = L.downloaded_scenes) := by
  constructor
  · intro halk
    exact wait_first_active_key_absent url k 300 5 s body L (by decide) henv
      hstatus hkey hfile halk
  · intro v halk
    obtain ⟨h1, h2⟩ := wait_first_active_key_present url k 300 5 s body L v
      (by decide) henv hstatus hkey hfile halk
    refine ⟨h1, h2, alookup_aset_self _ _ _, ?_, rfl⟩
    intro k2 hk2
    exact alookup_aset_ne _ _ _ _ hk2

theorem C10_poll_updates_only_existing_witness :
    (wait_for_asset_activation selfLinkS1 300 5 c10St).1 = Except.ok true ∧
    (wait_for_asset_activation selfLinkS1 300 5 c10St).2.1.statusFile =
      some { doneLedger with
        activated_scenes := aset doneLedger.activated_scenes "S1_ortho_visual"
          "active" } ∧
    alookup (aset doneLedger.activated_scenes "S1_ortho_visual" "active")
      "S1_ortho_visual" = some "active" ∧
    (∀ k2, k2 ≠ "S1_ortho_visual" →
      alookup (aset doneLedger.activated_scenes "S1_ortho_visual" "active") k2 =
        alookup doneLedger.activated_scenes k2) ∧
    ({ doneLedger with
        activated_scenes := aset doneLedger.activated_scenes "S1_ortho_visual"
          "active" }).downloaded_scenes = doneLedger.downloaded_scenes :=
  (C10_poll_updates_only_existing selfLinkS1 "S1_ortho_visual" c10St
    statusActiveBody doneLedger (fun _ => rfl) rfl rfl rfl).2 "active" rfl
